import Mathlib

/-!
Shallow embedding of the PY-LICENCIAS-GLDE-SGLCA repository, covering the
external lookup client (integraciones/codart.py), the local validators and
filename sanitizer (utils.py, comercio/app_permisos.py) and the
spreadsheet-backed store (comercio/sheets_comercio.py), together with
theorems settling the frozen claims about them.

Modelling conventions: Python strings are Lean `String` (ASCII semantics for
upper-casing and digit classification); machine floats produced by the
Python float constructor are modelled as rationals parsed from finite
decimal literals; dictionaries are association lists; the HTTP transport is
an oracle mapping requests to responses; raising an exception is modelled
with `Except`.
-/

set_option maxRecDepth 100000

namespace Glde

/-! ### Character and string helpers (Python str semantics) -/

/-- Whitespace characters stripped by the Python str.strip method. -/
def isSpc (c : Char) : Bool :=
  c == ' ' || c == '\t' || c == '\n' || c == '\r' || c == '\x0b' || c == '\x0c'

/-- Removes trailing whitespace from a character list. -/
def stripEnd : List Char → List Char
  | [] => []
  | c :: cs =>
    match stripEnd cs with
    | [] => if isSpc c then [] else [c]
    | r => c :: r

/-- Python str.strip: drop leading and trailing whitespace. -/
def pyStrip (s : String) : String :=
  ⟨stripEnd (List.dropWhile isSpc s.data)⟩

/-- ASCII upper-casing of one character (Python str.upper, ASCII fragment). -/
def upC (c : Char) : Char :=
  if c.isLower then Char.ofNat (c.toNat - 32) else c

/-- Python str.upper (ASCII fragment). -/
def pyUpper (s : String) : String :=
  ⟨s.data.map upC⟩

/-- Python str.isdigit on ASCII strings: nonempty and all decimal digits. -/
def pyIsDigit (s : String) : Bool :=
  !s.data.isEmpty && s.data.all Char.isDigit

/-- Join a list of character lists with a single space separator
(Python str.join with a one-space separator). -/
def joinSp : List (List Char) → List Char
  | [] => []
  | [x] => x
  | x :: xs => x ++ ' ' :: joinSp xs

/-- Join strings with single spaces. -/
def joinSpStr (l : List String) : String :=
  ⟨joinSp (l.map String.data)⟩

/-- Whether the first list occurs at the head of the second. -/
def leadMatch : List Char → List Char → Bool
  | [], _ => true
  | _ :: _, [] => false
  | a :: as, b :: bs => a == b && leadMatch as bs

/-- Whether the first list occurs contiguously inside the second. -/
def infixCheck (n : List Char) : List Char → Bool
  | [] => n.isEmpty
  | c :: rest => leadMatch n (c :: rest) || infixCheck n rest

/-- Python substring membership: needle occurs in hay. -/
def strHas (hay needle : String) : Bool :=
  infixCheck needle.data hay.data

/-! ### integraciones/codart.py : HTTP model -/

/-- HTTP method used by the client. -/
inductive Method
  | get
  | post
deriving DecidableEq, Repr

/-- Query parameters or JSON body: an association list of string pairs. -/
abbrev Params := List (String × String)

/-- A dictionary-shaped JSON payload, as returned in the result field. -/
abbrev ResDict := List (String × String)

/-- One outbound HTTP request issued by the client. -/
structure Request where
  method : Method
  url : String
  params : Option Params
deriving DecidableEq, Repr

/-- The envelope of a JSON dictionary response: the fields the client
inspects (success, message, error, result). -/
structure Envelope where
  success : Option Bool
  message : Option String
  error : Option String
  result : Option ResDict
deriving DecidableEq, Repr

/-- Outcome of calling resp.json() on a response body. -/
inductive JsonOutcome
  | parseFail
  | nonDict
  | dict (env : Envelope)
deriving DecidableEq, Repr

/-- An HTTP response: status code, raw text, and its JSON interpretation. -/
structure HttpResp where
  status : Nat
  text : String
  json : JsonOutcome
deriving DecidableEq, Repr

/-- The network: a total oracle answering each request. -/
abbrev Oracle := Request → HttpResp

/-- Exceptions raised by the client code: ValueError from the local
validators, CodartAPIError from the HTTP layer. -/
inductive PyError
  | valueError (msg : String)
  | codartError (msg : String)
deriving DecidableEq, Repr

def BASE_URL : String := "https://api.codart.cgrt.net/api/v1/consultas"

/-- Python or-chains over optional strings treat the empty string as falsy:
data.get(k) or default. -/
def orElseNonEmpty (a : Option String) (b : String) : String :=
  match a with
  | some s => if s = "" then b else s
  | none => b

/-- The local parse helper inside get_json: resp.json() must parse, be a
dict, and carry success = True; otherwise CodartAPIError text. -/
def parseResp (resp : HttpResp) : Except String Envelope :=
  match resp.json with
  | .parseFail => .error ("HTTP " ++ toString resp.status ++ ": " ++ resp.text.take 300)
  | .nonDict => .error "Respuesta inesperada (no es dict)."
  | .dict env =>
    if env.success = some true then .ok env
    else
      .error ("CODART respondió error: "
        ++ orElseNonEmpty env.message (orElseNonEmpty env.error "success=false"))

/-- get_json from integraciones/codart.py: GET the url; on 406/415/403
retry once as POST with the params as JSON body, then once as a GET without
params; raise with a combined diagnostic when all three fail. Returns the
outcome together with the trace of requests issued. -/
def get_json (oracle : Oracle) (url : String) (params : Option Params) :
    Except String Envelope × List Request :=
  let r1 : Request := ⟨.get, url, params⟩
  let resp := oracle r1
  if resp.status = 406 ∨ resp.status = 415 ∨ resp.status = 403 then
    let r2 : Request := ⟨.post, url, some (params.getD [])⟩
    let resp2 := oracle r2
    if resp2.status < 400 then (parseResp resp2, [r1, r2])
    else
      let r3 : Request := ⟨.get, url, none⟩
      let resp3 := oracle r3
      if resp3.status < 400 then (parseResp resp3, [r1, r2, r3])
      else
        (.error ("Bloqueado por servidor/WAF. GET=" ++ toString resp.status
            ++ " POST=" ++ toString resp2.status ++ ". "
            ++ "GET body: " ++ resp.text.take 200), [r1, r2, r3])
  else if resp.status ≥ 400 then
    (.error ("HTTP " ++ toString resp.status ++ ": " ++ resp.text.take 300), [r1])
  else (parseResp resp, [r1])

/-- validar_dni: strip, then require exactly 8 digits; some = the validated
string, none = ValueError raised. -/
def validar_dni (dni : String) : Option String :=
  let d := pyStrip dni
  if pyIsDigit d && d.length = 8 then some d else none

/-- validar_ruc: strip, then require exactly 11 digits. -/
def validar_ruc (ruc : String) : Option String :=
  let r := pyStrip ruc
  if pyIsDigit r && r.length = 11 then some r else none

/-- data.get("result", default-empty) or empty-dict. -/
def resultOrEmpty (env : Envelope) : ResDict :=
  (env.result).getD []

/-- consultar_dni (uncached body): validate, query the primary route, and
on an error message containing HTTP 404 or HTTP 406 retry the secondary
route. Returns the outcome and the request trace. -/
def consultar_dni (oracle : Oracle) (dni : String) :
    Except PyError ResDict × List Request :=
  match validar_dni dni with
  | none => (.error (.valueError "DNI inválido. Debe tener 8 dígitos."), [])
  | some dni_ok =>
    let url_a := BASE_URL ++ "/reniec/dni/" ++ dni_ok
    let url_b := BASE_URL ++ "/reniec/dni/dni"
    let params_b : Params := [("dni", dni_ok)]
    match get_json oracle url_a none with
    | (.ok data, tr) => (.ok (resultOrEmpty data), tr)
    | (.error msg, tr) =>
      if strHas msg "HTTP 404" || strHas msg "HTTP 406" then
        match get_json oracle url_b (some params_b) with
        | (.ok data, tr2) => (.ok (resultOrEmpty data), tr ++ tr2)
        | (.error m2, tr2) => (.error (.codartError m2), tr ++ tr2)
      else (.error (.codartError msg), tr)

/-- consultar_ruc (uncached body): same shape over the sunat routes. -/
def consultar_ruc (oracle : Oracle) (ruc : String) :
    Except PyError ResDict × List Request :=
  match validar_ruc ruc with
  | none => (.error (.valueError "RUC inválido. Debe tener 11 dígitos."), [])
  | some ruc_ok =>
    let url_a := BASE_URL ++ "/sunat/ruc/" ++ ruc_ok
    let url_b := BASE_URL ++ "/sunat/ruc/ruc"
    let params_b : Params := [("ruc", ruc_ok)]
    match get_json oracle url_a none with
    | (.ok data, tr) => (.ok (resultOrEmpty data), tr)
    | (.error msg, tr) =>
      if strHas msg "HTTP 404" || strHas msg "HTTP 406" then
        match get_json oracle url_b (some params_b) with
        | (.ok data, tr2) => (.ok (resultOrEmpty data), tr ++ tr2)
        | (.error m2, tr2) => (.error (.codartError m2), tr ++ tr2)
      else (.error (.codartError msg), tr)

/-- dni_a_nombre_completo: join the stripped name parts with spaces, upper
case, strip; fall back to full_name when all three parts are empty. -/
def dni_a_nombre_completo (res : ResDict) : String :=
  let nombres := pyStrip ((res.lookup "first_name").getD "")
  let ape1 := pyStrip ((res.lookup "first_last_name").getD "")
  let ape2 := pyStrip ((res.lookup "second_last_name").getD "")
  if nombres = "" ∧ ape1 = "" ∧ ape2 = "" then
    pyStrip ((res.lookup "full_name").getD "")
  else
    pyStrip (pyUpper (joinSpStr (([nombres, ape1, ape2]).filter (fun p => p ≠ ""))))

/-! ### Lookup caching (st.cache_data with a 24h ttl) -/

/-- Cache time-to-live: 60 * 60 * 24 seconds. -/
def TTL : Nat := 60 * 60 * 24

/-- One cache entry: the argument string, the insertion time, the value. -/
structure CacheEntry where
  key : String
  time : Nat
  val : ResDict
deriving DecidableEq, Repr

abbrev Cache := List CacheEntry

/-- Modelled from the spec: the process-wide cache supplied by the UI
framework cache decorator (st.cache_data, not part of src/) keeps, per
argument string, the returned value for the fixed 24h window; an entry is
valid while its age is below the ttl. -/
def cacheLookup (c : Cache) (k : String) (now : Nat) : Option ResDict :=
  match c.find? (fun e => e.key == k && decide (now < e.time + TTL)) with
  | some e => some e.val
  | none => none

/-- Modelled from the spec: consultar_dni as wrapped by the 24h cache
decorator. A hit returns the stored value with no outbound request; a miss
runs the body and stores a successful value under the argument string. -/
def consultar_dni_cached (oracle : Oracle) (c : Cache) (now : Nat) (dni : String) :
    Except PyError ResDict × List Request × Cache :=
  match cacheLookup c dni now with
  | some v => (.ok v, [], c)
  | none =>
    match consultar_dni oracle dni with
    | (.ok v, tr) => (.ok v, tr, ⟨dni, now, v⟩ :: c)
    | (.error e, tr) => (.error e, tr, c)

/-- Modelled from the spec: consultar_ruc as wrapped by its own 24h cache
decorator (the decorator keeps one cache per wrapped function), with the
same hit/miss behavior as the DNI wrapper. -/
def consultar_ruc_cached (oracle : Oracle) (c : Cache) (now : Nat) (ruc : String) :
    Except PyError ResDict × List Request × Cache :=
  match cacheLookup c ruc now with
  | some v => (.ok v, [], c)
  | none =>
    match consultar_ruc oracle ruc with
    | (.ok v, tr) => (.ok v, tr, ⟨ruc, now, v⟩ :: c)
    | (.error e, tr) => (.error e, tr, c)

/-! ### utils.py : filename sanitizer -/

/-- The forbidden filename characters of safe_filename_pretty. -/
def prohibidos : List Char := ['<', '>', ':', '"', '/', '\\', '|', '?', '*']

/-- safe_filename_pretty from utils.py (duplicated verbatim in
comercio/app_permisos.py): replace forbidden characters with underscore,
then newline and carriage return with spaces, then strip. -/
def safe_filename_pretty (texto : String) : String :=
  let limpio : String := ⟨texto.data.map (fun c => if prohibidos.contains c then '_' else c)⟩
  pyStrip ⟨(limpio.data.map (fun c => if c == '\n' then ' ' else c)).map
    (fun c => if c == '\r' then ' ' else c)⟩

/-- The sanitizer as the claim words it: one pass replacing each forbidden
character by underscore and each newline or carriage return by a space,
all other characters preserved in order, then trimmed at both ends. -/
def sanitize_spec (texto : String) : String :=
  pyStrip ⟨texto.data.map (fun c =>
    if prohibidos.contains c then '_'
    else if c == '\n' || c == '\r' then ' '
    else c)⟩

/-! ### comercio/app_permisos.py : local validators -/

/-- _doc_identidad_valido: strip, then 8 digits (DNI) or 9 digits (CE). -/
def doc_identidad_valido (val : String) : Bool :=
  let doc := pyStrip val
  pyIsDigit doc && (doc.length = 8 || doc.length = 9)

/-- Numeric value of a list of decimal digit characters. -/
def natOfDigits (l : List Char) : Nat :=
  l.foldl (fun a c => a * 10 + (c.toNat - 48)) 0

/-- All-digit nonempty run, or nothing. -/
def digitsOnly (u : List Char) : Option Nat :=
  if !u.isEmpty && u.all Char.isDigit then some (natOfDigits u) else none

/-- Optionally signed digit run (exponent body). -/
def signedDigits : List Char → Option Int
  | '+' :: u => (digitsOnly u).map (fun n => (n : Int))
  | '-' :: u => (digitsOnly u).map (fun n => -(n : Int))
  | u => (digitsOnly u).map (fun n => (n : Int))

/-- Exponent suffix: empty, or e/E followed by an optionally signed digit
run covering the rest of the input. -/
def parseExp : List Char → Option Int
  | [] => some 0
  | 'e' :: t => signedDigits t
  | 'E' :: t => signedDigits t
  | _ => none

/-- An exact rational value num/den (den positive), the representation of
a parsed Python float in this embedding. -/
structure PyNum where
  num : Int
  den : Nat
deriving DecidableEq, Repr

/-- Order on parsed numbers by cross multiplication (dens positive). -/
def pyNumLe (a b : PyNum) : Bool :=
  a.num * (b.den : Int) ≤ b.num * (a.den : Int)

/-- The rational value a parsed number denotes. -/
def PyNum.toRat (a : PyNum) : ℚ := (a.num : ℚ) / (a.den : ℚ)

/-- Mantissa: digits, optionally a point and more digits, at least one
digit in total; returns numerator, denominator and the unconsumed rest. -/
def parseMantissa (cs : List Char) : Option (Nat × Nat × List Char) :=
  let ip := cs.takeWhile Char.isDigit
  let r1 := cs.dropWhile Char.isDigit
  match r1 with
  | '.' :: t =>
    let fp := t.takeWhile Char.isDigit
    let r2 := t.dropWhile Char.isDigit
    if ip.isEmpty && fp.isEmpty then none
    else some (natOfDigits ip * 10 ^ fp.length + natOfDigits fp, 10 ^ fp.length, r2)
  | _ => if ip.isEmpty then none else some (natOfDigits ip, 1, r1)

/-- The Python float constructor on finite decimal literals, modelled as
an exact rational: optional sign, mantissa, optional exponent. -/
def pyFloat (s : String) : Option PyNum :=
  let p : Int × List Char :=
    match s.data with
    | '+' :: t => (1, t)
    | '-' :: t => (-1, t)
    | t => (1, t)
  match parseMantissa p.2 with
  | none => none
  | some (mnum, mden, rest) =>
    match parseExp rest with
    | none => none
    | some e =>
      if 0 ≤ e then some ⟨p.1 * mnum * (10 : Int) ^ e.toNat, mden⟩
      else some ⟨p.1 * mnum, mden * 10 ^ (-e).toNat⟩

/-- Common core of the coordinate check: split the character list at its
first comma, trim both parts, parse both as numbers, check the latitude
and longitude ranges. -/
def coordCore (l : List Char) : Bool :=
  let a := l.takeWhile (fun c => c != ',')
  let b := (l.dropWhile (fun c => c != ',')).tail
  match pyFloat (pyStrip ⟨a⟩), pyFloat (pyStrip ⟨b⟩) with
  | some lat, some lon =>
    pyNumLe ⟨-90, 1⟩ lat && pyNumLe lat ⟨90, 1⟩ &&
      (pyNumLe ⟨-180, 1⟩ lon && pyNumLe lon ⟨180, 1⟩)
  | _, _ => false

/-- _coordenadas_validas: strip, require a nonempty string with a comma,
then split at the first comma and validate both parts. -/
def coordenadas_validas (val : String) : Bool :=
  let raw := pyStrip val
  if raw = "" || !(raw.data.contains ',') then false
  else coordCore raw.data

/-- The coordinate acceptance condition as the claim words it: the string
splits at its first comma into two parts which, trimmed, parse as numbers
with the latitude in [-90, 90] and the longitude in [-180, 180]; every
other string (no comma, unparsable parts, out-of-range values) is
rejected. -/
def coordenadas_spec (val : String) : Bool :=
  if !(val.data.contains ',') then false
  else coordCore val.data

/-! ### comercio/sheets_comercio.py : spreadsheet-backed store

A worksheet is a list of rows of string cells; the first row is the
header. A data frame carries its column list and its rows. -/

abbrev Row := List String
abbrev SheetValues := List Row

structure DF where
  cols : List String
  rows : List Row
deriving DecidableEq, Repr

def COLUMNAS_EVALUACION : List String :=
  ["N°",
   "NUMERO DE DOCUMENTO SIMPLE",
   "NOMBRES Y APELLIDOS",
   "N° DE EVALUACIÓN",
   "FECHA",
   "N° DE RESOLUCIÓN",
   "FECHA DE RESOLUCIÓN",
   "N° DE AUTORIZACIÓN",
   "FECHA DE AUTORIZACION"]

def COLUMNAS_AUTORIZACION : List String :=
  ["FECHA DE INGRESO",
   "D.S",
   "NOMBRE Y APELLIDO",
   "DNI",
   "GENERO",
   "DOMICILIO FISCAL",
   "CERTIFICADO ANTERIOR",
   "FECHA EMITIDA CERTIFICADO ANTERIOR",
   "FECHA DE CADUCIDAD CERTIFICADO ANTERIOR",
   "N° DE EVALUACION",
   "FECHA DE EVALUACION",
   "N° DE RESOLUCIÓN",
   "FECHA RESOLUCIÓN",
   "N° DE CERTIFICADO",
   "FECHA EMITIDA CERTIFICADO",
   "VIGENCIA DE AUTORIZACIÓN",
   "LUGAR DE VENTA",
   "COORDENADAS",
   "REFERENCIA",
   "GIRO",
   "HORARIO",
   "N° TELEFONO",
   "TIEMPO",
   "PLAZO"]

def COLUMNAS_DOCUMENTOS : List String :=
  ["ESTADO",
   "N°",
   "FECHA DE INGRESO",
   "N° DE DOCUMENTO SIMPLE",
   "ASUNTO",
   "NOMBRE Y APELLIDO",
   "DNI",
   "DOMICILIO FISCAL",
   "GIRO O MOTIVO DE LA SOLICITUD",
   "UBICACIÓN A SOLICITAR",
   "N° DE CELULAR",
   "PROCEDENTE / IMPROCEDENTE",
   "N° DE CARTA",
   "FECHA DE LA CARTA",
   "FECHA DE NOTIFICACION",
   "FOLIOS"]

/-- Reading one cell by column name from a row laid out along a header;
absent columns read as the empty string. -/
def cellAt (header : List String) (r : Row) (c : String) : String :=
  if header.contains c then r.getD (header.indexOf c) "" else ""

/-- Writing one cell by column name. -/
def setCell (header : List String) (r : Row) (c v : String) : Row :=
  r.set (header.indexOf c) v

/-- Ensure every expected column exists (backfilled with the empty string)
and reorder to the expected column list, as both leer_df and escribir_df
do before using a data frame. -/
def reindexDF (columnas : List String) (df : DF) : DF :=
  ⟨columnas, df.rows.map (fun r => columnas.map (cellAt df.cols r))⟩

/-- leer_df: empty worksheet gives an empty frame over the expected
columns; otherwise the first row is the header and the rest are data. -/
def leer_df (values : SheetValues) (columnas : List String) : DF :=
  match values with
  | [] => ⟨columnas, []⟩
  | header :: filas => reindexDF columnas ⟨header, filas⟩

/-- escribir_df: reindex to the expected columns and write header plus
data rows back (cells are already strings, so astype is the identity). -/
def escribir_df (columnas : List String) (df : DF) : SheetValues :=
  let d := reindexDF columnas df
  d.cols :: d.rows

/-- One cell of the appended row: the value given for that column (empty
when unset), except the auto-number column, which gets the running count. -/
def nuevaCell (fila : List (String × String)) (auto : Option String) (n : Nat)
    (c : String) : String :=
  match auto with
  | some a => if a = c then toString n else (fila.lookup c).getD ""
  | none => (fila.lookup c).getD ""

/-- append_fila: read the frame, build the new row from the given
column-to-value pairs (missing columns empty, the optional auto-number
column set to the row count plus one), append it and write back. -/
def append_fila (values : SheetValues) (columnas : List String)
    (fila : List (String × String)) (auto : Option String) : SheetValues :=
  let df := leer_df values columnas
  let nueva : Row := columnas.map (nuevaCell fila auto (df.rows.length + 1))
  escribir_df columnas ⟨columnas, df.rows ++ [nueva]⟩

/-- append_evaluacion: the Evaluaciones_CA row built from its arguments,
with the auto-numbered first column. -/
def append_evaluacion (values : SheetValues)
    (num_ds nombre_completo cod_evaluacion fecha_eval cod_resolucion
     fecha_resolucion num_autorizacion fecha_autorizacion : String) : SheetValues :=
  append_fila values COLUMNAS_EVALUACION
    [("NUMERO DE DOCUMENTO SIMPLE", num_ds),
     ("NOMBRES Y APELLIDOS", nombre_completo),
     ("N° DE EVALUACIÓN", cod_evaluacion),
     ("FECHA", fecha_eval),
     ("N° DE RESOLUCIÓN", cod_resolucion),
     ("FECHA DE RESOLUCIÓN", fecha_resolucion),
     ("N° DE AUTORIZACIÓN", num_autorizacion),
     ("FECHA DE AUTORIZACION", fecha_autorizacion)]
    (some "N°")

/-- append_autorizacion: the Autorizaciones_CA row, with no auto-numbered
column. -/
def append_autorizacion (values : SheetValues)
    (fecha_ingreso ds nombre dni genero domicilio_fiscal certificado_anterior
     fecha_emitida_cert_anterior fecha_caducidad_cert_anterior num_eval
     fecha_eval num_resolucion fecha_resolucion num_certificado
     fecha_emitida_cert vigencia_autorizacion lugar_venta referencia giro
     horario coordenadas telefono tiempo plazo : String) : SheetValues :=
  append_fila values COLUMNAS_AUTORIZACION
    [("FECHA DE INGRESO", fecha_ingreso),
     ("D.S", ds),
     ("NOMBRE Y APELLIDO", nombre),
     ("DNI", dni),
     ("GENERO", genero),
     ("DOMICILIO FISCAL", domicilio_fiscal),
     ("CERTIFICADO ANTERIOR", certificado_anterior),
     ("FECHA EMITIDA CERTIFICADO ANTERIOR", fecha_emitida_cert_anterior),
     ("FECHA DE CADUCIDAD CERTIFICADO ANTERIOR", fecha_caducidad_cert_anterior),
     ("N° DE EVALUACION", num_eval),
     ("FECHA DE EVALUACION", fecha_eval),
     ("N° DE RESOLUCIÓN", num_resolucion),
     ("FECHA RESOLUCIÓN", fecha_resolucion),
     ("N° DE CERTIFICADO", num_certificado),
     ("FECHA EMITIDA CERTIFICADO", fecha_emitida_cert),
     ("VIGENCIA DE AUTORIZACIÓN", vigencia_autorizacion),
     ("LUGAR DE VENTA", lugar_venta),
     ("COORDENADAS", coordenadas),
     ("REFERENCIA", referencia),
     ("GIRO", giro),
     ("HORARIO", horario),
     ("N° TELEFONO", telefono),
     ("TIEMPO", tiempo),
     ("PLAZO", plazo)]
    none

/-- append_documento: the Documentos_CA row, auto-numbered in its second
column, with the estado argument defaulting to PENDIENTE at call sites. -/
def append_documento (values : SheetValues)
    (fecha_ingreso num_documento_simple asunto nombre dni domicilio_fiscal
     giro_motivo ubicacion_solicitar celular procedencia num_carta
     fecha_carta fecha_notificacion folios estado : String) : SheetValues :=
  append_fila values COLUMNAS_DOCUMENTOS
    [("ESTADO", estado),
     ("FECHA DE INGRESO", fecha_ingreso),
     ("N° DE DOCUMENTO SIMPLE", num_documento_simple),
     ("ASUNTO", asunto),
     ("NOMBRE Y APELLIDO", nombre),
     ("DNI", dni),
     ("DOMICILIO FISCAL", domicilio_fiscal),
     ("GIRO O MOTIVO DE LA SOLICITUD", giro_motivo),
     ("UBICACIÓN A SOLICITAR", ubicacion_solicitar),
     ("N° DE CELULAR", celular),
     ("PROCEDENTE / IMPROCEDENTE", procedencia),
     ("N° DE CARTA", num_carta),
     ("FECHA DE LA CARTA", fecha_carta),
     ("FECHA DE NOTIFICACION", fecha_notificacion),
     ("FOLIOS", folios)]
    (some "N°")

/-- actualizar_evaluacion_con_resolucion: none models returning with no
write performed; some gives the values written back. -/
def actualizar_evaluacion_con_resolucion (values : SheetValues)
    (cod_evaluacion cod_resolucion fecha_resolucion num_autorizacion
     fecha_autorizacion : String) : Option SheetValues :=
  let df := leer_df values COLUMNAS_EVALUACION
  if df.rows.isEmpty then none
  else
    let mask : Row → Bool := fun r =>
      cellAt COLUMNAS_EVALUACION r "N° DE EVALUACIÓN" == cod_evaluacion
    if !(df.rows.any mask) then none
    else
      let rows2 := df.rows.map (fun r =>
        if mask r then
          setCell COLUMNAS_EVALUACION
            (setCell COLUMNAS_EVALUACION
              (setCell COLUMNAS_EVALUACION
                (setCell COLUMNAS_EVALUACION r "N° DE RESOLUCIÓN" cod_resolucion)
                "FECHA DE RESOLUCIÓN" fecha_resolucion)
              "N° DE AUTORIZACIÓN" num_autorizacion)
            "FECHA DE AUTORIZACION" fecha_autorizacion
        else r)
      some (escribir_df COLUMNAS_EVALUACION ⟨COLUMNAS_EVALUACION, rows2⟩)

/-- actualizar_autorizacion_resolucion_y_cert: same pattern over
Autorizaciones_CA, updating the resolution and certificate columns. -/
def actualizar_autorizacion_resolucion_y_cert (values : SheetValues)
    (num_eval certificado_anterior fecha_emitida_cert_anterior
     fecha_caducidad_cert_anterior num_resolucion fecha_resolucion
     num_certificado fecha_emitida_cert vigencia_autorizacion : String) :
    Option SheetValues :=
  let df := leer_df values COLUMNAS_AUTORIZACION
  if df.rows.isEmpty then none
  else
    let mask : Row → Bool := fun r =>
      cellAt COLUMNAS_AUTORIZACION r "N° DE EVALUACION" == num_eval
    if !(df.rows.any mask) then none
    else
      let upd : Row → Row := fun r =>
        setCell COLUMNAS_AUTORIZACION
          (setCell COLUMNAS_AUTORIZACION
            (setCell COLUMNAS_AUTORIZACION
              (setCell COLUMNAS_AUTORIZACION
                (setCell COLUMNAS_AUTORIZACION
                  (setCell COLUMNAS_AUTORIZACION
                    (setCell COLUMNAS_AUTORIZACION
                      (setCell COLUMNAS_AUTORIZACION r
                        "CERTIFICADO ANTERIOR" certificado_anterior)
                      "FECHA EMITIDA CERTIFICADO ANTERIOR" fecha_emitida_cert_anterior)
                    "FECHA DE CADUCIDAD CERTIFICADO ANTERIOR" fecha_caducidad_cert_anterior)
                  "N° DE RESOLUCIÓN" num_resolucion)
                "FECHA RESOLUCIÓN" fecha_resolucion)
              "N° DE CERTIFICADO" num_certificado)
            "FECHA EMITIDA CERTIFICADO" fecha_emitida_cert)
          "VIGENCIA DE AUTORIZACIÓN" vigencia_autorizacion
      let rows2 := df.rows.map (fun r => if mask r then upd r else r)
      some (escribir_df COLUMNAS_AUTORIZACION ⟨COLUMNAS_AUTORIZACION, rows2⟩)

/-- actualizar_estado_documento: rows matching the stripped document
number get their ESTADO set to the upper-cased new state. -/
def actualizar_estado_documento (values : SheetValues)
    (num_documento_simple nuevo_estado : String) : Option SheetValues :=
  let df := leer_df values COLUMNAS_DOCUMENTOS
  if df.rows.isEmpty then none
  else
    let mask : Row → Bool := fun r =>
      pyStrip (cellAt COLUMNAS_DOCUMENTOS r "N° DE DOCUMENTO SIMPLE")
        == pyStrip num_documento_simple
    if !(df.rows.any mask) then none
    else
      let rows2 := df.rows.map (fun r =>
        if mask r then setCell COLUMNAS_DOCUMENTOS r "ESTADO" (pyUpper nuevo_estado)
        else r)
      some (escribir_df COLUMNAS_DOCUMENTOS ⟨COLUMNAS_DOCUMENTOS, rows2⟩)

/-! ### Generic lemmas about the string helpers -/

theorem dropWhile_length_le (p : α → Bool) (l : List α) :
    (List.dropWhile p l).length ≤ l.length := by
  induction l with
  | nil => simp
  | cons c cs ih =>
    by_cases h : p c
    · simp [List.dropWhile_cons, h]
      omega
    · simp [List.dropWhile_cons, h]

theorem dropWhile_idem (p : α → Bool) (l : List α) :
    List.dropWhile p (List.dropWhile p l) = List.dropWhile p l := by
  induction l with
  | nil => simp
  | cons c cs ih =>
    by_cases h : p c
    · simp [List.dropWhile_cons, h, ih]
    · simp [List.dropWhile_cons, h]

theorem head_not_of_dropWhile_eq (p : α → Bool) (c : α) (cs : List α)
    (h : List.dropWhile p (c :: cs) = c :: cs) : p c = false := by
  by_cases hc : p c
  · rw [List.dropWhile_cons, if_pos hc] at h
    have := dropWhile_length_le p cs
    rw [h] at this
    simp at this
  · simpa using hc

theorem stripEnd_cons_eq (c : Char) (cs : List Char) :
    stripEnd (c :: cs) = (match stripEnd cs with
      | [] => if isSpc c then [] else [c]
      | r => c :: r) := rfl

theorem stripEnd_cons_of_nil (c : Char) (cs : List Char) (he : stripEnd cs = []) :
    stripEnd (c :: cs) = if isSpc c then [] else [c] := by
  rw [stripEnd_cons_eq, he]

theorem stripEnd_cons_of_cons (c x : Char) (cs xs : List Char)
    (he : stripEnd cs = x :: xs) : stripEnd (c :: cs) = c :: x :: xs := by
  rw [stripEnd_cons_eq, he]

theorem stripEnd_cons_notspc (c : Char) (l : List Char) (h : isSpc c = false) :
    stripEnd (c :: l) = c :: stripEnd l := by
  cases he : stripEnd l with
  | nil => rw [stripEnd_cons_of_nil c l he, h]; simp
  | cons x xs => rw [stripEnd_cons_of_cons c x l xs he]

theorem stripEnd_append (l m : List Char) (h : stripEnd m ≠ []) :
    stripEnd (l ++ m) = l ++ stripEnd m := by
  induction l with
  | nil => simp
  | cons c cs ih =>
    show stripEnd (c :: (cs ++ m)) = c :: (cs ++ stripEnd m)
    cases he : stripEnd (cs ++ m) with
    | nil =>
      rw [ih] at he
      rcases List.append_eq_nil.mp he with ⟨-, h2⟩
      exact absurd h2 h
    | cons x xs =>
      rw [stripEnd_cons_of_cons c x (cs ++ m) xs he, ← he, ih]

theorem stripEnd_idem (l : List Char) : stripEnd (stripEnd l) = stripEnd l := by
  induction l with
  | nil => simp [stripEnd]
  | cons c cs ih =>
    cases he : stripEnd cs with
    | nil =>
      rw [stripEnd_cons_of_nil c cs he]
      by_cases h : isSpc c
      · simp [h, stripEnd]
      · simp [h, stripEnd]
    | cons x xs =>
      rw [stripEnd_cons_of_cons c x cs xs he]
      cases hxx : stripEnd (x :: xs) with
      | nil =>
        rw [← he, ih, he] at hxx
        simp at hxx
      | cons y ys =>
        rw [stripEnd_cons_of_cons c y (x :: xs) ys hxx, ← hxx, ← he, ih, he]

theorem stripEnd_eq_nil_dropWhile (l : List Char) (h : stripEnd l = []) :
    List.dropWhile isSpc l = [] := by
  induction l with
  | nil => simp
  | cons c cs ih =>
    cases he : stripEnd cs with
    | nil =>
      rw [stripEnd_cons_of_nil c cs he] at h
      by_cases hc : isSpc c
      · simp [List.dropWhile_cons, hc, ih he]
      · simp [hc] at h
    | cons x xs => rw [stripEnd_cons_of_cons c x cs xs he] at h; simp at h

theorem cleanL_stripEnd (l : List Char) (h : List.dropWhile isSpc l = l) :
    List.dropWhile isSpc (stripEnd l) = stripEnd l := by
  cases l with
  | nil => simp [stripEnd]
  | cons c cs =>
    have hc : isSpc c = false := head_not_of_dropWhile_eq _ _ _ h
    rw [stripEnd_cons_notspc c cs hc, List.dropWhile_cons, hc]
    simp

theorem cleanL_pyStrip (s : String) :
    List.dropWhile isSpc (pyStrip s).data = (pyStrip s).data :=
  cleanL_stripEnd _ (dropWhile_idem _ _)

theorem cleanR_pyStrip (s : String) : stripEnd (pyStrip s).data = (pyStrip s).data :=
  stripEnd_idem _

theorem pyStrip_eq_self_of_clean (l : List Char)
    (h1 : List.dropWhile isSpc l = l) (h2 : stripEnd l = l) :
    pyStrip ⟨l⟩ = ⟨l⟩ := by
  unfold pyStrip
  simp [h1, h2]

/-! ### C6 : filename sanitizer -/

theorem sanitize_char_step (c : Char) :
    (fun c => if c == '\r' then ' ' else c)
      ((fun c => if c == '\n' then ' ' else c)
        (if prohibidos.contains c then '_' else c)) =
    (if prohibidos.contains c then '_'
     else if c == '\n' || c == '\r' then ' ' else c) := by
  by_cases h : c ∈ prohibidos
  · simp [h]
  · by_cases h1 : c = '\n'
    · subst h1; decide
    · by_cases h2 : c = '\r'
      · subst h2; decide
      · simp [h, h1, h2]

/-- C6, confirmed: safe_filename_pretty replaces each forbidden filename
character by an underscore, each newline and carriage return by a space,
trims surrounding whitespace, and leaves every other character unchanged
in its original order (stated as equality with the one-pass per-character
map the claim describes, plus a concrete instance). -/
theorem safe_filename_pretty_spec :
    (∀ s : String, safe_filename_pretty s = sanitize_spec s) ∧
    safe_filename_pretty " a<b>:c\nd*  " = "a_b__c d_" := by
  constructor
  · intro s
    unfold safe_filename_pretty sanitize_spec
    simp only [List.map_map]
    congr 2
    exact List.map_congr_left (fun c _ => sanitize_char_step c)
  · rfl

/-! ### C3 : identifier classification -/

/-- A network oracle whose every answer is a 500 with an unparsable body,
used to instantiate universally quantified statements. -/
def oracle0 : Oracle := fun _ => ⟨500, "", .parseFail⟩

/-- C3, confirmed: after trimming, an 8-digit string passes the DNI
validator, a 9-digit string passes the document-identity validator, an
11-digit string passes the RUC validator, and a string of any other length
or with a non-digit character fails every validator; for the raising
validators the failure is the ValueError, raised locally with no outbound
request issued. -/
theorem clasificacion_identificadores (s : String) (oracle : Oracle) :
    (pyIsDigit (pyStrip s) = true → (pyStrip s).length = 8 →
      validar_dni s = some (pyStrip s)) ∧
    (pyIsDigit (pyStrip s) = true → (pyStrip s).length = 9 →
      doc_identidad_valido s = true) ∧
    (pyIsDigit (pyStrip s) = true → (pyStrip s).length = 11 →
      validar_ruc s = some (pyStrip s)) ∧
    (pyIsDigit (pyStrip s) = false ∨
        ((pyStrip s).length ≠ 8 ∧ (pyStrip s).length ≠ 9 ∧ (pyStrip s).length ≠ 11) →
      validar_dni s = none ∧ doc_identidad_valido s = false ∧ validar_ruc s = none ∧
      consultar_dni oracle s =
        (.error (.valueError "DNI inválido. Debe tener 8 dígitos."), []) ∧
      consultar_ruc oracle s =
        (.error (.valueError "RUC inválido. Debe tener 11 dígitos."), [])) := by
  refine ⟨?_, ?_, ?_, ?_⟩
  · intro hd h8
    simp [validar_dni, hd, h8]
  · intro hd h9
    simp [doc_identidad_valido, hd, h9]
  · intro hd h11
    simp [validar_ruc, hd, h11]
  · intro h
    have hdni : validar_dni s = none := by
      unfold validar_dni
      rcases h with h | ⟨h8, -, -⟩
      · simp [h]
      · simp [h8]
    have hdoc : doc_identidad_valido s = false := by
      unfold doc_identidad_valido
      rcases h with h | ⟨h8, h9, -⟩
      · simp [h]
      · simp [h8, h9]
    have hruc : validar_ruc s = none := by
      unfold validar_ruc
      rcases h with h | ⟨-, -, h11⟩
      · simp [h]
      · simp [h11]
    refine ⟨hdni, hdoc, hruc, ?_, ?_⟩
    · simp [consultar_dni, hdni]
    · simp [consultar_ruc, hruc]

/-- Witness for C3 at concrete identifiers of each digit-length class. -/
theorem clasificacion_identificadores_witness :
    validar_dni " 12345678 " = some "12345678" ∧
    doc_identidad_valido "123456789" = true ∧
    validar_ruc "20123456789" = some "20123456789" ∧
    validar_dni "12AB" = none ∧
    consultar_dni oracle0 "1234567" =
      (.error (.valueError "DNI inválido. Debe tener 8 dígitos."), []) := by
  refine ⟨?_, ?_, ?_, ?_, ?_⟩
  · exact (clasificacion_identificadores " 12345678 " oracle0).1 (by decide) (by decide)
  · exact (clasificacion_identificadores "123456789" oracle0).2.1 (by decide) (by decide)
  · exact (clasificacion_identificadores "20123456789" oracle0).2.2.1 (by decide) (by decide)
  · exact ((clasificacion_identificadores "12AB" oracle0).2.2.2 (by decide)).1
  · exact ((clasificacion_identificadores "1234567" oracle0).2.2.2
      (Or.inr (by decide))).2.2.2.1

/-! ### Substring facts used by the endpoint fallback check -/

theorem leadMatch_self_append (n m : List Char) : leadMatch n (n ++ m) = true := by
  induction n with
  | nil => simp [leadMatch]
  | cons a as ih => simp [leadMatch, ih]

theorem infixCheck_self_append (n m : List Char) : infixCheck n (n ++ m) = true := by
  cases hn : n ++ m with
  | nil =>
    have : n = [] := (List.append_eq_nil.mp hn).1
    simp [this, infixCheck]
  | cons c rest =>
    rw [infixCheck, ← hn, leadMatch_self_append]
    simp

theorem strHas_http404 (t : String) :
    strHas ("HTTP " ++ toString (404 : Nat) ++ ": " ++ t) "HTTP 404" = true := by
  have he : ("HTTP " ++ toString (404 : Nat) ++ ": " ++ t) = "HTTP 404: " ++ t := rfl
  rw [he]
  unfold strHas
  rw [String.data_append]
  have h2 : ("HTTP 404: ").data = "HTTP 404".data ++ [':', ' '] := rfl
  rw [h2, List.append_assoc]
  exact infixCheck_self_append _ _

/-! ### Branch equations for get_json -/

theorem get_json_plain_error (oracle : Oracle) (url : String) (params : Option Params)
    (h1 : ¬((oracle ⟨.get, url, params⟩).status = 406 ∨
      (oracle ⟨.get, url, params⟩).status = 415 ∨
      (oracle ⟨.get, url, params⟩).status = 403))
    (h2 : (oracle ⟨.get, url, params⟩).status ≥ 400) :
    get_json oracle url params =
      (.error ("HTTP " ++ toString (oracle ⟨.get, url, params⟩).status ++ ": "
        ++ (oracle ⟨.get, url, params⟩).text.take 300), [⟨.get, url, params⟩]) := by
  unfold get_json
  rw [if_neg h1, if_pos h2]

theorem get_json_success (oracle : Oracle) (url : String) (params : Option Params)
    (env : Envelope)
    (h1 : (oracle ⟨.get, url, params⟩).status < 400)
    (hj : (oracle ⟨.get, url, params⟩).json = .dict env)
    (hs : env.success = some true) :
    get_json oracle url params = (.ok env, [⟨.get, url, params⟩]) := by
  unfold get_json
  rw [if_neg (by omega), if_neg (by omega)]
  unfold parseResp
  rw [hj]
  simp [hs]

/-! ### C2 : WAF retry sequence and its combined diagnostic -/

/-- A network where the parameterised GET meets a 406 with body AAA, the
POST a 415 with body BBB, and the parameterless GET a 500 with body CCC. -/
def oracleC2 : Oracle := fun r =>
  match r.method with
  | .post => ⟨415, "BBB", .parseFail⟩
  | .get => if r.params.isSome then ⟨406, "AAA", .parseFail⟩ else ⟨500, "CCC", .parseFail⟩

/-- C2 counterexample: all three attempts fail (GET 406, POST 415, final
GET 500), yet the raised message carries neither the third status nor the
bodies of the second and third attempts, against the claim that it
combines the statuses and truncated bodies of all attempted requests. -/
theorem get_json_diag_cex :
    get_json oracleC2 "https://u" (some [("q", "1")]) =
      (.error "Bloqueado por servidor/WAF. GET=406 POST=415. GET body: AAA",
       [⟨.get, "https://u", some [("q", "1")]⟩,
        ⟨.post, "https://u", some [("q", "1")]⟩,
        ⟨.get, "https://u", none⟩]) ∧
    (oracleC2 ⟨.get, "https://u", none⟩).status = 500 ∧
    strHas "Bloqueado por servidor/WAF. GET=406 POST=415. GET body: AAA" "500" = false ∧
    strHas "Bloqueado por servidor/WAF. GET=406 POST=415. GET body: AAA" "BBB" = false ∧
    strHas "Bloqueado por servidor/WAF. GET=406 POST=415. GET body: AAA" "CCC" = false := by
  refine ⟨rfl, rfl, ?_, ?_, ?_⟩ <;> decide

/-- C2 amended: when the initial GET is answered 403, 406 or 415 the
client retries exactly once as a POST to the same URL with the same
parameters as JSON body and, if that fails with status at least 400,
exactly once more as a GET without parameters; if all three fail it
raises CodartAPIError whose message combines the statuses of the GET and
POST attempts and the 200-character truncated body of the initial GET
only. -/
theorem get_json_waf_retries (oracle : Oracle) (url : String) (params : Option Params)
    (h1 : (oracle ⟨.get, url, params⟩).status = 406 ∨
      (oracle ⟨.get, url, params⟩).status = 415 ∨
      (oracle ⟨.get, url, params⟩).status = 403)
    (h2 : (oracle ⟨.post, url, some (params.getD [])⟩).status ≥ 400)
    (h3 : (oracle ⟨.get, url, none⟩).status ≥ 400) :
    get_json oracle url params =
      (.error ("Bloqueado por servidor/WAF. GET="
          ++ toString (oracle ⟨.get, url, params⟩).status
          ++ " POST=" ++ toString (oracle ⟨.post, url, some (params.getD [])⟩).status
          ++ ". " ++ "GET body: " ++ (oracle ⟨.get, url, params⟩).text.take 200),
       [⟨.get, url, params⟩, ⟨.post, url, some (params.getD [])⟩, ⟨.get, url, none⟩]) := by
  unfold get_json
  rw [if_pos h1, if_neg (by omega), if_neg (by omega)]

/-- Witness for C2 at the concrete network oracleC2. -/
theorem get_json_waf_retries_witness :
    get_json oracleC2 "https://u" (some [("q", "1")]) =
      (.error ("Bloqueado por servidor/WAF. GET=" ++ toString (406 : Nat)
          ++ " POST=" ++ toString (415 : Nat) ++ ". " ++ "GET body: " ++ "AAA"),
       [⟨.get, "https://u", some [("q", "1")]⟩,
        ⟨.post, "https://u", some [("q", "1")]⟩,
        ⟨.get, "https://u", none⟩]) :=
  get_json_waf_retries oracleC2 "https://u" (some [("q", "1")])
    (by decide) (by decide) (by decide)

/-! ### C1 : primary/secondary endpoint fallback -/

/-- A network where the secondary route answers 200 with a success
envelope while every request to any other URL (in particular every
attempt against the primary route) is answered 406. -/
def oracleC1 : Oracle := fun r =>
  if r.url = BASE_URL ++ "/reniec/dni/dni" then
    ⟨200, "ok", .dict ⟨some true, none, none, some [("first_name", "ANA")]⟩⟩
  else ⟨406, "bloqueado", .parseFail⟩

/-- C1 counterexample: the primary endpoint answers 406 and the secondary
endpoint would answer 200 with a success envelope, yet consultar_dni
raises (the WAF retry message of the primary attempt does not contain the
HTTP 406 marker the fallback check looks for) and the secondary route is
never queried: all three issued requests target the primary URL. -/
theorem consultar_dni_406_cex :
    oracleC1 ⟨.get, BASE_URL ++ "/reniec/dni/dni", some [("dni", "12345678")]⟩ =
      ⟨200, "ok", .dict ⟨some true, none, none, some [("first_name", "ANA")]⟩⟩ ∧
    consultar_dni oracleC1 "12345678" =
      (.error (.codartError
          "Bloqueado por servidor/WAF. GET=406 POST=406. GET body: bloqueado"),
       [⟨.get, BASE_URL ++ "/reniec/dni/12345678", none⟩,
        ⟨.post, BASE_URL ++ "/reniec/dni/12345678", some []⟩,
        ⟨.get, BASE_URL ++ "/reniec/dni/12345678", none⟩]) := by
  constructor
  · rfl
  · rfl

/-- C1 amended: the lookup operations first issue a GET to the primary
endpoint path; the fallback to the secondary endpoint path fires when the
primary attempt raises a message carrying the HTTP 404 (or HTTP 406)
marker, which for transport statuses happens exactly on 404; a primary
404 followed by a secondary 200 success envelope yields the secondary
result without raising, whereas a primary 406 triggers the in-URL WAF
retries and surfaces failure without consulting the secondary endpoint. -/
theorem consultar_404_fallback (oracle : Oracle) (dni ruc dok rok : String)
    (envD envR : Envelope)
    (hvd : validar_dni dni = some dok)
    (hvr : validar_ruc ruc = some rok)
    (hd404 : (oracle ⟨.get, BASE_URL ++ "/reniec/dni/" ++ dok, none⟩).status = 404)
    (hdst : (oracle ⟨.get, BASE_URL ++ "/reniec/dni/dni", some [("dni", dok)]⟩).status = 200)
    (hdjs : (oracle ⟨.get, BASE_URL ++ "/reniec/dni/dni", some [("dni", dok)]⟩).json =
      .dict envD)
    (hdok : envD.success = some true)
    (hr404 : (oracle ⟨.get, BASE_URL ++ "/sunat/ruc/" ++ rok, none⟩).status = 404)
    (hrst : (oracle ⟨.get, BASE_URL ++ "/sunat/ruc/ruc", some [("ruc", rok)]⟩).status = 200)
    (hrjs : (oracle ⟨.get, BASE_URL ++ "/sunat/ruc/ruc", some [("ruc", rok)]⟩).json =
      .dict envR)
    (hrok : envR.success = some true) :
    consultar_dni oracle dni =
      (.ok (resultOrEmpty envD),
       [⟨.get, BASE_URL ++ "/reniec/dni/" ++ dok, none⟩,
        ⟨.get, BASE_URL ++ "/reniec/dni/dni", some [("dni", dok)]⟩]) ∧
    consultar_ruc oracle ruc =
      (.ok (resultOrEmpty envR),
       [⟨.get, BASE_URL ++ "/sunat/ruc/" ++ rok, none⟩,
        ⟨.get, BASE_URL ++ "/sunat/ruc/ruc", some [("ruc", rok)]⟩]) := by
  constructor
  · have hga := get_json_plain_error oracle (BASE_URL ++ "/reniec/dni/" ++ dok) none
      (by omega) (by omega)
    rw [hd404] at hga
    have hgb := get_json_success oracle (BASE_URL ++ "/reniec/dni/dni")
      (some [("dni", dok)]) envD (by omega) hdjs hdok
    unfold consultar_dni
    rw [hvd]
    simp only [hga, hgb, strHas_http404, Bool.true_or, if_true]
    simp
  · have hga := get_json_plain_error oracle (BASE_URL ++ "/sunat/ruc/" ++ rok) none
      (by omega) (by omega)
    rw [hr404] at hga
    have hgb := get_json_success oracle (BASE_URL ++ "/sunat/ruc/ruc")
      (some [("ruc", rok)]) envR (by omega) hrjs hrok
    unfold consultar_ruc
    rw [hvr]
    simp only [hga, hgb, strHas_http404, Bool.true_or, if_true]
    simp

/-- A network answering 404 on parameterless requests and a 200 success
envelope on parameterised ones: the primary route misses, the secondary
route hits. -/
def oracle404 : Oracle := fun r =>
  if r.params.isSome then
    ⟨200, "ok", .dict ⟨some true, none, none, some [("first_name", "ANA")]⟩⟩
  else ⟨404, "not found", .parseFail⟩

/-- Witness for C1 at the concrete network oracle404. -/
theorem consultar_404_fallback_witness :
    consultar_dni oracle404 "12345678" =
      (.ok [("first_name", "ANA")],
       [⟨.get, BASE_URL ++ "/reniec/dni/12345678", none⟩,
        ⟨.get, BASE_URL ++ "/reniec/dni/dni", some [("dni", "12345678")]⟩]) ∧
    consultar_ruc oracle404 "20123456789" =
      (.ok [("first_name", "ANA")],
       [⟨.get, BASE_URL ++ "/sunat/ruc/20123456789", none⟩,
        ⟨.get, BASE_URL ++ "/sunat/ruc/ruc", some [("ruc", "20123456789")]⟩]) :=
  consultar_404_fallback oracle404 "12345678" "20123456789" "12345678" "20123456789"
    ⟨some true, none, none, some [("first_name", "ANA")]⟩
    ⟨some true, none, none, some [("first_name", "ANA")]⟩
    (by decide) (by decide) (by decide) (by decide) (by decide) (by decide)
    (by decide) (by decide) (by decide) (by decide)

/-! ### C4 : 24h lookup cache -/

theorem consultar_dni_success_eq (oracle : Oracle) (dni dok : String) (env : Envelope)
    (hv : validar_dni dni = some dok)
    (hst : (oracle ⟨.get, BASE_URL ++ "/reniec/dni/" ++ dok, none⟩).status < 400)
    (hj : (oracle ⟨.get, BASE_URL ++ "/reniec/dni/" ++ dok, none⟩).json = .dict env)
    (hs : env.success = some true) :
    consultar_dni oracle dni =
      (.ok (resultOrEmpty env), [⟨.get, BASE_URL ++ "/reniec/dni/" ++ dok, none⟩]) := by
  have hg := get_json_success oracle (BASE_URL ++ "/reniec/dni/" ++ dok) none env hst hj hs
  unfold consultar_dni
  rw [hv]
  simp only [hg]

theorem consultar_ruc_success_eq (oracle : Oracle) (ruc rok : String) (env : Envelope)
    (hv : validar_ruc ruc = some rok)
    (hst : (oracle ⟨.get, BASE_URL ++ "/sunat/ruc/" ++ rok, none⟩).status < 400)
    (hj : (oracle ⟨.get, BASE_URL ++ "/sunat/ruc/" ++ rok, none⟩).json = .dict env)
    (hs : env.success = some true) :
    consultar_ruc oracle ruc =
      (.ok (resultOrEmpty env), [⟨.get, BASE_URL ++ "/sunat/ruc/" ++ rok, none⟩]) := by
  have hg := get_json_success oracle (BASE_URL ++ "/sunat/ruc/" ++ rok) none env hst hj hs
  unfold consultar_ruc
  rw [hv]
  simp only [hg]

/-- C4, confirmed over the modelled cache decorator, for both lookup
operations: with the identifier absent from the cache, a first call at
time t0 issues exactly one outbound request and stores its result under
the identifier string; a second call to the same operation at any time t1
inside the fixed 24h window issues no request and returns the cached
result, so for each operation both calls together issue exactly one
outbound request. -/
theorem cache_single_request (oracle : Oracle) (dni dok ruc rok : String)
    (env envR : Envelope) (t0 t1 : Nat)
    (hv : validar_dni dni = some dok)
    (hst : (oracle ⟨.get, BASE_URL ++ "/reniec/dni/" ++ dok, none⟩).status < 400)
    (hj : (oracle ⟨.get, BASE_URL ++ "/reniec/dni/" ++ dok, none⟩).json = .dict env)
    (hs : env.success = some true)
    (hvr : validar_ruc ruc = some rok)
    (hstR : (oracle ⟨.get, BASE_URL ++ "/sunat/ruc/" ++ rok, none⟩).status < 400)
    (hjR : (oracle ⟨.get, BASE_URL ++ "/sunat/ruc/" ++ rok, none⟩).json = .dict envR)
    (hsR : envR.success = some true)
    (ht : t1 < t0 + TTL) :
    consultar_dni_cached oracle [] t0 dni =
      (.ok (resultOrEmpty env), [⟨.get, BASE_URL ++ "/reniec/dni/" ++ dok, none⟩],
       [⟨dni, t0, resultOrEmpty env⟩]) ∧
    consultar_dni_cached oracle [⟨dni, t0, resultOrEmpty env⟩] t1 dni =
      (.ok (resultOrEmpty env), [], [⟨dni, t0, resultOrEmpty env⟩]) ∧
    consultar_ruc_cached oracle [] t0 ruc =
      (.ok (resultOrEmpty envR), [⟨.get, BASE_URL ++ "/sunat/ruc/" ++ rok, none⟩],
       [⟨ruc, t0, resultOrEmpty envR⟩]) ∧
    consultar_ruc_cached oracle [⟨ruc, t0, resultOrEmpty envR⟩] t1 ruc =
      (.ok (resultOrEmpty envR), [], [⟨ruc, t0, resultOrEmpty envR⟩]) := by
  have hc := consultar_dni_success_eq oracle dni dok env hv hst hj hs
  have hcR := consultar_ruc_success_eq oracle ruc rok envR hvr hstR hjR hsR
  refine ⟨?_, ?_, ?_, ?_⟩
  · have h0 : cacheLookup [] dni t0 = none := rfl
    unfold consultar_dni_cached
    simp only [h0, hc]
  · have h1 : cacheLookup [⟨dni, t0, resultOrEmpty env⟩] dni t1 =
        some (resultOrEmpty env) := by
      unfold cacheLookup
      simp [List.find?, ht]
    unfold consultar_dni_cached
    simp only [h1]
  · have h0 : cacheLookup [] ruc t0 = none := rfl
    unfold consultar_ruc_cached
    simp only [h0, hcR]
  · have h1 : cacheLookup [⟨ruc, t0, resultOrEmpty envR⟩] ruc t1 =
        some (resultOrEmpty envR) := by
      unfold cacheLookup
      simp [List.find?, ht]
    unfold consultar_ruc_cached
    simp only [h1]

/-- A network answering every request with a 200 success envelope. -/
def oracleOK : Oracle := fun _ =>
  ⟨200, "ok", .dict ⟨some true, none, none, some [("first_name", "ANA")]⟩⟩

/-- Witness for C4: for each lookup operation, a first call at time 0 and
a second one hour later. -/
theorem cache_single_request_witness :
    consultar_dni_cached oracleOK [] 0 "12345678" =
      (.ok [("first_name", "ANA")],
       [⟨.get, BASE_URL ++ "/reniec/dni/12345678", none⟩],
       [⟨"12345678", 0, [("first_name", "ANA")]⟩]) ∧
    consultar_dni_cached oracleOK [⟨"12345678", 0, [("first_name", "ANA")]⟩]
        3600 "12345678" =
      (.ok [("first_name", "ANA")], [], [⟨"12345678", 0, [("first_name", "ANA")]⟩]) ∧
    consultar_ruc_cached oracleOK [] 0 "20123456789" =
      (.ok [("first_name", "ANA")],
       [⟨.get, BASE_URL ++ "/sunat/ruc/20123456789", none⟩],
       [⟨"20123456789", 0, [("first_name", "ANA")]⟩]) ∧
    consultar_ruc_cached oracleOK [⟨"20123456789", 0, [("first_name", "ANA")]⟩]
        3600 "20123456789" =
      (.ok [("first_name", "ANA")], [],
       [⟨"20123456789", 0, [("first_name", "ANA")]⟩]) :=
  cache_single_request oracleOK "12345678" "12345678" "20123456789" "20123456789"
    ⟨some true, none, none, some [("first_name", "ANA")]⟩
    ⟨some true, none, none, some [("first_name", "ANA")]⟩ 0 3600
    (by decide) (by decide) (by decide) (by decide)
    (by decide) (by decide) (by decide) (by decide) (by decide)

/-! ### C5 : name assembly -/

theorem toNat_ofNat_valid (n : Nat) (h : n.isValidChar) : (Char.ofNat n).toNat = n := by
  simp [Char.ofNat, h, Char.ofNatAux, Char.toNat, UInt32.toNat, BitVec.toNat_ofNatLt]

theorem isSpc_false_of_gt (c : Char) (h : 32 < c.toNat) : isSpc c = false := by
  have hs : ∀ d : Char, d.toNat ≤ 32 → c ≠ d := by
    intro d hd e
    subst e
    omega
  unfold isSpc
  simp only [Bool.or_eq_false_iff, beq_eq_false_iff_ne, ne_eq]
  refine ⟨⟨⟨⟨⟨hs ' ' (by decide), hs '\t' (by decide)⟩, hs '\n' (by decide)⟩,
    hs '\r' (by decide)⟩, hs '\x0b' (by decide)⟩, hs '\x0c' (by decide)⟩

theorem isSpc_upC (c : Char) : isSpc (upC c) = isSpc c := by
  unfold upC
  by_cases h : c.isLower
  · simp only [h, if_true]
    have hb : 97 ≤ c.toNat ∧ c.toNat ≤ 122 := by
      simpa [Char.isLower] using h
    have hv : (c.toNat - 32).isValidChar := Or.inl (by omega)
    have ht : (Char.ofNat (c.toNat - 32)).toNat = c.toNat - 32 := toNat_ofNat_valid _ hv
    rw [isSpc_false_of_gt _ (by omega), isSpc_false_of_gt _ (by omega)]
  · simp [h]

theorem dropWhile_map_upC (l : List Char) :
    List.dropWhile isSpc (l.map upC) = (List.dropWhile isSpc l).map upC := by
  induction l with
  | nil => simp
  | cons c cs ih =>
    by_cases h : isSpc c
    · simp [List.dropWhile_cons, isSpc_upC, h, ih]
    · simp [List.dropWhile_cons, isSpc_upC, h]

theorem stripEnd_map_upC (l : List Char) :
    stripEnd (l.map upC) = (stripEnd l).map upC := by
  induction l with
  | nil => rfl
  | cons c cs ih =>
    cases he : stripEnd cs with
    | nil =>
      have he2 : stripEnd (cs.map upC) = [] := by rw [ih, he]; rfl
      rw [List.map_cons, stripEnd_cons_of_nil _ _ he2, stripEnd_cons_of_nil _ _ he,
        isSpc_upC]
      by_cases h : isSpc c
      · simp [h]
      · simp [h]
    | cons x xs =>
      have he2 : stripEnd (cs.map upC) = upC x :: xs.map upC := by rw [ih, he]; rfl
      rw [List.map_cons, stripEnd_cons_of_cons _ _ _ _ he2,
        stripEnd_cons_of_cons _ _ _ _ he]
      rfl

theorem joinSp_head_ne_nil (y : List Char) (rest : List (List Char)) (hy : y ≠ []) :
    joinSp (y :: rest) ≠ [] := by
  cases rest with
  | nil => simpa [joinSp] using hy
  | cons z r =>
    show y ++ ' ' :: joinSp (z :: r) ≠ []
    simp

theorem joinSp_clean (l : List (List Char)) :
    (∀ p ∈ l, p ≠ [] ∧ List.dropWhile isSpc p = p ∧ stripEnd p = p) →
    List.dropWhile isSpc (joinSp l) = joinSp l ∧ stripEnd (joinSp l) = joinSp l := by
  induction l with
  | nil => intro _; simp [joinSp, stripEnd]
  | cons x xs ih =>
    intro h
    obtain ⟨hx0, hxL, hxR⟩ := h x (List.mem_cons_self x xs)
    cases xs with
    | nil => exact ⟨hxL, hxR⟩
    | cons y ys =>
      have hrest : ∀ p ∈ y :: ys, p ≠ [] ∧ List.dropWhile isSpc p = p ∧ stripEnd p = p :=
        fun p hp => h p (List.mem_cons_of_mem _ hp)
      obtain ⟨ihL, ihR⟩ := ih hrest
      have hJne : joinSp (y :: ys) ≠ [] :=
        joinSp_head_ne_nil y ys (hrest y (List.mem_cons_self y ys)).1
      have hshape : joinSp (x :: y :: ys) = x ++ ' ' :: joinSp (y :: ys) := rfl
      constructor
      · rw [hshape]
        obtain ⟨c, cs, rfl⟩ : ∃ c cs, x = c :: cs := by
          cases x with
          | nil => exact absurd rfl hx0
          | cons c cs => exact ⟨c, cs, rfl⟩
        have hc : isSpc c = false := head_not_of_dropWhile_eq _ _ _ hxL
        rw [List.cons_append, List.dropWhile_cons, hc]
        simp
      · rw [hshape]
        have hmid : stripEnd (' ' :: joinSp (y :: ys)) = ' ' :: joinSp (y :: ys) := by
          obtain ⟨j0, jr, hj⟩ : ∃ j0 jr, joinSp (y :: ys) = j0 :: jr := by
            cases hje : joinSp (y :: ys) with
            | nil => exact absurd hje hJne
            | cons j0 jr => exact ⟨j0, jr, rfl⟩
          rw [hj] at ihR ⊢
          exact stripEnd_cons_of_cons _ _ _ _ ihR
        rw [stripEnd_append _ _ (by rw [hmid]; simp), hmid]

theorem data_ne_nil_of_ne_empty (s : String) (h : s ≠ "") : s.data ≠ [] := by
  intro e
  apply h
  cases s with
  | mk d => cases e; rfl

theorem pyStrip_pyUpper_joinSp (parts : List String)
    (h : ∀ p ∈ parts, p ≠ "" ∧
      List.dropWhile isSpc p.data = p.data ∧ stripEnd p.data = p.data) :
    pyStrip (pyUpper (joinSpStr parts)) = pyUpper (joinSpStr parts) := by
  have hJ := joinSp_clean (parts.map String.data) (by
    intro q hq
    obtain ⟨p, hp, rfl⟩ := List.mem_map.mp hq
    obtain ⟨h0, hL, hR⟩ := h p hp
    exact ⟨data_ne_nil_of_ne_empty p h0, hL, hR⟩)
  unfold pyStrip pyUpper joinSpStr
  simp only []
  congr 1
  rw [dropWhile_map_upC, hJ.1, stripEnd_map_upC, hJ.2]

/-- The name assembly as the claim words it: the trimmed name parts in the
order given-name, first surname, second surname, the empty ones skipped,
joined by single spaces and upper-cased; when all three are empty, the
trimmed full-name field (empty string when absent). -/
def nombre_spec (res : ResDict) : String :=
  let nombres := pyStrip ((res.lookup "first_name").getD "")
  let ape1 := pyStrip ((res.lookup "first_last_name").getD "")
  let ape2 := pyStrip ((res.lookup "second_last_name").getD "")
  if nombres = "" ∧ ape1 = "" ∧ ape2 = "" then
    pyStrip ((res.lookup "full_name").getD "")
  else
    pyUpper (joinSpStr (([nombres, ape1, ape2]).filter (fun p => p ≠ "")))

/-- C5, confirmed: dni_a_nombre_completo returns the non-empty trimmed
name parts joined in order by single spaces and upper-cased, falling back
to the trimmed full-name field when all three parts are empty; including
the two concrete instances named by the claim. -/
theorem dni_a_nombre_completo_ok :
    (∀ res : ResDict, dni_a_nombre_completo res = nombre_spec res) ∧
    dni_a_nombre_completo
      [("first_name", "ANA"), ("first_last_name", "PEREZ"),
       ("second_last_name", "LOPEZ")] = "ANA PEREZ LOPEZ" ∧
    dni_a_nombre_completo
      [("first_name", ""), ("first_last_name", ""), ("second_last_name", ""),
       ("full_name", "ANA PEREZ")] = "ANA PEREZ" := by
  refine ⟨?_, rfl, rfl⟩
  intro res
  unfold dni_a_nombre_completo nombre_spec
  by_cases hc : pyStrip ((res.lookup "first_name").getD "") = "" ∧
      pyStrip ((res.lookup "first_last_name").getD "") = "" ∧
      pyStrip ((res.lookup "second_last_name").getD "") = ""
  · simp [hc]
  · simp only [hc, if_false]
    apply pyStrip_pyUpper_joinSp
    intro p hp
    rw [List.mem_filter] at hp
    obtain ⟨hmem, hne⟩ := hp
    have hne2 : p ≠ "" := by simpa using hne
    have hmem2 : p = pyStrip ((res.lookup "first_name").getD "") ∨
        p = pyStrip ((res.lookup "first_last_name").getD "") ∨
        p = pyStrip ((res.lookup "second_last_name").getD "") := by
      simpa using hmem
    refine ⟨hne2, ?_, ?_⟩
    · rcases hmem2 with h1 | h1 | h1 <;> (subst h1; exact cleanL_pyStrip _)
    · rcases hmem2 with h1 | h1 | h1 <;> (subst h1; exact cleanR_pyStrip _)

/-! ### C7 : coordinate validation -/

theorem mem_dropWhile_iff (p : α → Bool) (c : α) (hc : p c = false) (l : List α) :
    c ∈ List.dropWhile p l ↔ c ∈ l := by
  induction l with
  | nil => simp
  | cons d t ih =>
    by_cases hd : p d
    · rw [List.dropWhile_cons, if_pos hd, ih]
      constructor
      · exact fun h => List.mem_cons_of_mem _ h
      · intro h
        rcases List.mem_cons.mp h with h1 | h1
        · subst h1; rw [hd] at hc; cases hc
        · exact h1
    · rw [List.dropWhile_cons, if_neg hd]

theorem mem_stripEnd_iff (c : Char) (hc : isSpc c = false) (l : List Char) :
    c ∈ stripEnd l ↔ c ∈ l := by
  induction l with
  | nil => simp [stripEnd]
  | cons d t ih =>
    cases he : stripEnd t with
    | nil =>
      rw [he] at ih
      have hnt : c ∉ t := fun h => by
        rw [← ih] at h
        cases h
      rw [stripEnd_cons_of_nil d t he]
      by_cases hd : isSpc d
      · rw [if_pos hd]
        simp only [List.not_mem_nil, false_iff, List.mem_cons]
        rintro (h1 | h1)
        · subst h1; rw [hd] at hc; cases hc
        · exact hnt h1
      · rw [if_neg hd]
        simp [hnt]
    | cons x xs =>
      rw [stripEnd_cons_of_cons d x t xs he]
      have h2 : c ∈ x :: xs ↔ c ∈ t := he ▸ ih
      exact Iff.trans (List.mem_cons)
        (Iff.trans (or_congr Iff.rfl h2) (List.mem_cons).symm)

theorem stripEnd_dropWhile_comm (l : List Char) :
    stripEnd (List.dropWhile isSpc l) = List.dropWhile isSpc (stripEnd l) := by
  induction l with
  | nil => simp [stripEnd]
  | cons c t ih =>
    by_cases hc : isSpc c
    · rw [List.dropWhile_cons, if_pos hc]
      cases he : stripEnd t with
      | nil =>
        rw [stripEnd_cons_of_nil c t he, if_pos hc]
        rw [ih, he]
      | cons x xs =>
        rw [stripEnd_cons_of_cons c x t xs he, List.dropWhile_cons, if_pos hc, ← he, ← ih]
    · rw [List.dropWhile_cons, if_neg hc, stripEnd_cons_notspc c t (by simpa using hc),
        List.dropWhile_cons, if_neg hc]

theorem pyStrip_stripEnd (b : List Char) :
    stripEnd (List.dropWhile isSpc (stripEnd b)) = stripEnd (List.dropWhile isSpc b) := by
  rw [← stripEnd_dropWhile_comm, stripEnd_idem]

theorem ne_comma_of_spc (c : Char) (h : isSpc c = true) : (c != ',') = true := by
  have hne : c ≠ ',' := by
    intro e
    subst e
    exact absurd h (by decide)
  simpa using hne

theorem takeWhile_ne_dropWhile_spc (l : List Char) :
    List.takeWhile (fun c => c != ',') (List.dropWhile isSpc l) =
      List.dropWhile isSpc (List.takeWhile (fun c => c != ',') l) := by
  induction l with
  | nil => simp
  | cons c t ih =>
    by_cases hc : isSpc c
    · rw [List.dropWhile_cons, if_pos hc, List.takeWhile_cons,
        if_pos (ne_comma_of_spc c hc), List.dropWhile_cons, if_pos hc, ih]
    · rw [List.dropWhile_cons, if_neg hc]
      by_cases hn : (c != ',') = true
      · rw [List.takeWhile_cons, if_pos hn, List.dropWhile_cons, if_neg hc]
      · rw [List.takeWhile_cons, if_neg hn]
        simp

theorem dropWhile_ne_dropWhile_spc (l : List Char) :
    List.dropWhile (fun c => c != ',') (List.dropWhile isSpc l) =
      List.dropWhile (fun c => c != ',') l := by
  induction l with
  | nil => simp
  | cons c t ih =>
    by_cases hc : isSpc c
    · rw [List.dropWhile_cons, if_pos hc, ih, List.dropWhile_cons,
        if_pos (ne_comma_of_spc c hc)]
    · rw [List.dropWhile_cons, if_neg hc]

theorem takeWhile_ne_append (A B : List Char) (h : ∀ x ∈ A, (x != ',') = true) :
    List.takeWhile (fun c => c != ',') (A ++ ',' :: B) = A := by
  induction A with
  | nil => simp [List.takeWhile_cons]
  | cons a as ih =>
    rw [List.cons_append, List.takeWhile_cons, if_pos (h a (List.mem_cons_self a as)),
      ih (fun x hx => h x (List.mem_cons_of_mem _ hx))]

theorem dropWhile_ne_append (A B : List Char) (h : ∀ x ∈ A, (x != ',') = true) :
    List.dropWhile (fun c => c != ',') (A ++ ',' :: B) = ',' :: B := by
  induction A with
  | nil => simp [List.dropWhile_cons]
  | cons a as ih =>
    rw [List.cons_append, List.dropWhile_cons, if_pos (h a (List.mem_cons_self a as)),
      ih (fun x hx => h x (List.mem_cons_of_mem _ hx))]

theorem dropWhile_ne_comma_cons (l : List Char) (h : ',' ∈ l) :
    List.dropWhile (fun c => c != ',') l =
      ',' :: (List.dropWhile (fun c => c != ',') l).tail := by
  induction l with
  | nil => cases h
  | cons c t ih =>
    by_cases hc : c = ','
    · subst hc
      rw [List.dropWhile_cons]
      simp
    · rw [List.dropWhile_cons, if_pos (by simpa using hc)]
      have ht : ',' ∈ t := by
        rcases List.mem_cons.mp h with h1 | h1
        · exact absurd h1.symm hc
        · exact h1
      exact ih ht

theorem stripEnd_split_at_comma (m : List Char) (hm : ',' ∈ m) :
    stripEnd m = List.takeWhile (fun c => c != ',') m ++
      ',' :: stripEnd ((List.dropWhile (fun c => c != ',') m).tail) := by
  conv_lhs => rw [← List.takeWhile_append_dropWhile (fun c => c != ',') m,
    dropWhile_ne_comma_cons m hm]
  rw [stripEnd_append _ _ (by
    rw [stripEnd_cons_notspc ',' _ (by decide)]
    simp)]
  rw [stripEnd_cons_notspc ',' _ (by decide)]

/-- The cross-multiplication order on parsed numbers agrees with the
rational order they denote. -/
theorem pyNumLe_iff (a b : PyNum) (ha : 0 < a.den) (hb : 0 < b.den) :
    pyNumLe a b = true ↔ a.toRat ≤ b.toRat := by
  unfold pyNumLe PyNum.toRat
  rw [decide_eq_true_eq]
  rw [div_le_div_iff₀ (by exact_mod_cast ha) (by exact_mod_cast hb)]
  exact_mod_cast Iff.rfl

/-- C7, confirmed: _coordenadas_validas accepts exactly the strings that
split at their first comma into two parts which, trimmed, both parse as
numbers with the latitude in [-90, 90] and the longitude in [-180, 180],
and rejects every other string (stated as equality with the claim-side
predicate, plus concrete accepted and rejected instances). -/
theorem coordenadas_validas_ok :
    (∀ s : String, coordenadas_validas s = coordenadas_spec s) ∧
    coordenadas_validas "-12.05, -77.03" = true ∧
    coordenadas_validas " -12.05,-77.03 " = true ∧
    coordenadas_validas "91, 0" = false ∧
    coordenadas_validas "12.05" = false ∧
    coordenadas_validas "a, b" = false ∧
    coordenadas_validas "" = false := by
  refine ⟨?_, by decide, by decide, by decide, by decide, by decide, by decide⟩
  intro s
  unfold coordenadas_validas coordenadas_spec
  by_cases hc : ',' ∈ s.data
  · -- the stripped string still holds the comma; both guards pass and the
    -- split-and-trimmed parts agree on both sides
    have hraw : (pyStrip s).data = stripEnd (List.dropWhile isSpc s.data) := rfl
    have hmem : ',' ∈ (pyStrip s).data := by
      rw [hraw, mem_stripEnd_iff ',' (by decide), mem_dropWhile_iff isSpc ',' (by decide)]
      exact hc
    have hcont1 : (pyStrip s).data.contains ',' = true := List.elem_iff.mpr hmem
    have hcont2 : s.data.contains ',' = true := List.elem_iff.mpr hc
    have hne : ¬(pyStrip s = "") := by
      intro e
      rw [e] at hmem
      cases hmem
    rw [if_neg (by simp [hne, hmem]), if_neg (by simp [hc])]
    -- part equalities
    have hmm : ',' ∈ List.dropWhile isSpc s.data := by
      rw [mem_dropWhile_iff isSpc ',' (by decide)]
      exact hc
    have hsplit := stripEnd_split_at_comma (List.dropWhile isSpc s.data) hmm
    have hA : ∀ x ∈ List.takeWhile (fun c => c != ',') (List.dropWhile isSpc s.data),
        (x != ',') = true := fun x hx => by
      have h3 := List.mem_takeWhile_imp (p := fun c => c != ',') hx
      simpa using h3
    have htake : List.takeWhile (fun c => c != ',') (pyStrip s).data =
        List.dropWhile isSpc (List.takeWhile (fun c => c != ',') s.data) := by
      rw [hraw, hsplit, takeWhile_ne_append _ _ hA, takeWhile_ne_dropWhile_spc]
    have hdrop : (List.dropWhile (fun c => c != ',') (pyStrip s).data).tail =
        stripEnd ((List.dropWhile (fun c => c != ',') s.data).tail) := by
      rw [hraw, hsplit, dropWhile_ne_append _ _ hA]
      rw [dropWhile_ne_dropWhile_spc]
      rfl
    unfold coordCore
    simp only [htake, hdrop]
    have e1 : pyStrip ⟨List.dropWhile isSpc (List.takeWhile (fun c => c != ',') s.data)⟩ =
        pyStrip ⟨List.takeWhile (fun c => c != ',') s.data⟩ := by
      unfold pyStrip
      rw [dropWhile_idem]
    have e2 : pyStrip ⟨stripEnd ((List.dropWhile (fun c => c != ',') s.data).tail)⟩ =
        pyStrip ⟨(List.dropWhile (fun c => c != ',') s.data).tail⟩ := by
      unfold pyStrip
      rw [pyStrip_stripEnd]
    rw [e1, e2]
  · -- no comma anywhere: both guards fail
    have hmem : ',' ∉ (pyStrip s).data := by
      rw [show (pyStrip s).data = stripEnd (List.dropWhile isSpc s.data) from rfl,
        mem_stripEnd_iff ',' (by decide), mem_dropWhile_iff isSpc ',' (by decide)]
      exact hc
    have hcont1 : (pyStrip s).data.contains ',' = false := by
      rw [← Bool.not_eq_true]
      intro h
      exact hmem (List.elem_iff.mp h)
    have hcont2 : s.data.contains ',' = false := by
      rw [← Bool.not_eq_true]
      intro h
      exact hc (List.elem_iff.mp h)
    rw [if_pos (by simp [hmem]), if_pos (by simp [hc])]

/-! ### Store lemmas : reading a well-formed worksheet is the identity -/

theorem cellAt_map_self (cols : List String) (hnd : cols.Nodup) (r : Row)
    (hlen : r.length = cols.length) : cols.map (cellAt cols r) = r := by
  apply List.ext_getElem
  · simp [hlen]
  · intro i h1 h2
    rw [List.getElem_map]
    unfold cellAt
    have hi : i < cols.length := by simpa using h1
    have hm : cols[i] ∈ cols := List.getElem_mem hi
    rw [if_pos (List.elem_iff.mpr hm), List.indexOf_getElem hnd i hi,
      List.getD_eq_getElem r "" h2]

theorem reindexDF_wf (cols : List String) (hnd : cols.Nodup) (rows : SheetValues)
    (hr : ∀ r ∈ rows, r.length = cols.length) :
    reindexDF cols ⟨cols, rows⟩ = ⟨cols, rows⟩ := by
  unfold reindexDF
  congr 1
  exact (List.map_congr_left
    (fun r h => cellAt_map_self cols hnd r (hr r h))).trans (List.map_id rows)

theorem leer_df_wf (cols : List String) (hnd : cols.Nodup) (rows : SheetValues)
    (hr : ∀ r ∈ rows, r.length = cols.length) :
    leer_df (cols :: rows) cols = ⟨cols, rows⟩ := by
  show reindexDF cols ⟨cols, rows⟩ = ⟨cols, rows⟩
  exact reindexDF_wf cols hnd rows hr

theorem escribir_df_wf (cols : List String) (hnd : cols.Nodup) (rows : SheetValues)
    (hr : ∀ r ∈ rows, r.length = cols.length) :
    escribir_df cols ⟨cols, rows⟩ = cols :: rows := by
  show (reindexDF cols ⟨cols, rows⟩).cols :: (reindexDF cols ⟨cols, rows⟩).rows =
    cols :: rows
  rw [reindexDF_wf cols hnd rows hr]

theorem append_fila_wf (cols : List String) (hnd : cols.Nodup) (rows : SheetValues)
    (hr : ∀ r ∈ rows, r.length = cols.length)
    (fila : List (String × String)) (auto : Option String) :
    append_fila (cols :: rows) cols fila auto =
      cols :: (rows ++ [cols.map (nuevaCell fila auto (rows.length + 1))]) := by
  unfold append_fila
  rw [leer_df_wf cols hnd rows hr]
  exact escribir_df_wf cols hnd
    (rows ++ [cols.map (nuevaCell fila auto (rows.length + 1))]) (by
      intro r h
      rcases List.mem_append.mp h with h1 | h1
      · exact hr r h1
      · rw [List.mem_singleton.mp h1, List.length_map])

/-! ### C8 : appends write exactly one row in column order -/

/-- C8, confirmed: on a well-formed tab each append operation writes back
the header, every previously existing data row unchanged, and exactly one
new row whose values sit in the declared column order, with unset
optional fields stored as empty strings and the auto-numbered column (for
evaluations and documents) set to the running count. -/
theorem append_una_fila
    (rowsE rowsA rowsD : SheetValues)
    (hE : ∀ r ∈ rowsE, r.length = COLUMNAS_EVALUACION.length)
    (hA : ∀ r ∈ rowsA, r.length = COLUMNAS_AUTORIZACION.length)
    (hD : ∀ r ∈ rowsD, r.length = COLUMNAS_DOCUMENTOS.length)
    (num_ds nombre_completo cod_evaluacion fecha_ev cod_resolucion fecha_resolucion
     num_autorizacion fecha_autorizacion : String)
    (fecha_ingreso ds nombre dni genero domicilio_fiscal certificado_anterior
     fecha_emitida_cert_anterior fecha_caducidad_cert_anterior num_eval fecha_ev2
     num_resolucion fecha_resolucion2 num_certificado fecha_emitida_cert
     vigencia_autorizacion lugar_venta referencia giro horario coordenadas telefono
     tiempo plazo : String)
    (dfecha_ingreso dnum_ds dasunto dnombre ddni ddomicilio dgiro dubicacion
     dcelular dprocedencia dnum_carta dfecha_carta dfecha_notificacion dfolios
     destado : String) :
    append_evaluacion (COLUMNAS_EVALUACION :: rowsE) num_ds nombre_completo
        cod_evaluacion fecha_ev cod_resolucion fecha_resolucion num_autorizacion
        fecha_autorizacion =
      COLUMNAS_EVALUACION :: (rowsE ++
        [[toString (rowsE.length + 1), num_ds, nombre_completo, cod_evaluacion,
          fecha_ev, cod_resolucion, fecha_resolucion, num_autorizacion,
          fecha_autorizacion]]) ∧
    append_autorizacion (COLUMNAS_AUTORIZACION :: rowsA) fecha_ingreso ds nombre dni
        genero domicilio_fiscal certificado_anterior fecha_emitida_cert_anterior
        fecha_caducidad_cert_anterior num_eval fecha_ev2 num_resolucion
        fecha_resolucion2 num_certificado fecha_emitida_cert vigencia_autorizacion
        lugar_venta referencia giro horario coordenadas telefono tiempo plazo =
      COLUMNAS_AUTORIZACION :: (rowsA ++
        [[fecha_ingreso, ds, nombre, dni, genero, domicilio_fiscal,
          certificado_anterior, fecha_emitida_cert_anterior,
          fecha_caducidad_cert_anterior, num_eval, fecha_ev2, num_resolucion,
          fecha_resolucion2, num_certificado, fecha_emitida_cert,
          vigencia_autorizacion, lugar_venta, coordenadas, referencia, giro,
          horario, telefono, tiempo, plazo]]) ∧
    append_documento (COLUMNAS_DOCUMENTOS :: rowsD) dfecha_ingreso dnum_ds dasunto
        dnombre ddni ddomicilio dgiro dubicacion dcelular dprocedencia dnum_carta
        dfecha_carta dfecha_notificacion dfolios destado =
      COLUMNAS_DOCUMENTOS :: (rowsD ++
        [[destado, toString (rowsD.length + 1), dfecha_ingreso, dnum_ds, dasunto,
          dnombre, ddni, ddomicilio, dgiro, dubicacion, dcelular, dprocedencia,
          dnum_carta, dfecha_carta, dfecha_notificacion, dfolios]]) := by
  refine ⟨?_, ?_, ?_⟩
  · unfold append_evaluacion
    rw [append_fila_wf COLUMNAS_EVALUACION (by decide) rowsE hE]
    rfl
  · unfold append_autorizacion
    rw [append_fila_wf COLUMNAS_AUTORIZACION (by decide) rowsA hA]
    rfl
  · unfold append_documento
    rw [append_fila_wf COLUMNAS_DOCUMENTOS (by decide) rowsD hD]
    rfl

/-- Witness for C8: one concrete append per tab, with the optional fields
unset. -/
theorem append_una_fila_witness :
    append_evaluacion
        (COLUMNAS_EVALUACION :: [["1", "DS-1", "AAA", "E-1", "01/01/2026",
          "", "", "", ""]])
        "DS-2" "BBB" "E-2" "02/01/2026" "" "" "" "" =
      COLUMNAS_EVALUACION :: [["1", "DS-1", "AAA", "E-1", "01/01/2026",
        "", "", "", ""],
        ["2", "DS-2", "BBB", "E-2", "02/01/2026", "", "", "", ""]] ∧
    append_autorizacion (COLUMNAS_AUTORIZACION :: []) "03/01/2026" "DS-3" "CCC"
        "11111111" "F" "dom" "" "" "" "E-3" "04/01/2026" "" "" "" "" "vig"
        "lugar" "ref" "giro" "hor" "" "" "" "" =
      COLUMNAS_AUTORIZACION :: [["03/01/2026", "DS-3", "CCC", "11111111", "F",
        "dom", "", "", "", "E-3", "04/01/2026", "", "", "", "", "vig", "lugar",
        "", "ref", "giro", "hor", "", "", ""]] ∧
    append_documento (COLUMNAS_DOCUMENTOS :: []) "05/01/2026" "DS-4" "SOLICITUD"
        "DDD" "22222222" "dom2" "giro2" "ubi" "999" "PROCEDENTE" "" "" "" ""
        "PENDIENTE" =
      COLUMNAS_DOCUMENTOS :: [["PENDIENTE", "1", "05/01/2026", "DS-4",
        "SOLICITUD", "DDD", "22222222", "dom2", "giro2", "ubi", "999",
        "PROCEDENTE", "", "", "", ""]] :=
  append_una_fila [["1", "DS-1", "AAA", "E-1", "01/01/2026", "", "", "", ""]] [] []
    (by decide) (by decide) (by decide)
    "DS-2" "BBB" "E-2" "02/01/2026" "" "" "" ""
    "03/01/2026" "DS-3" "CCC" "11111111" "F" "dom" "" "" "" "E-3" "04/01/2026"
    "" "" "" "" "vig" "lugar" "ref" "giro" "hor" "" "" "" ""
    "05/01/2026" "DS-4" "SOLICITUD" "DDD" "22222222" "dom2" "giro2" "ubi" "999"
    "PROCEDENTE" "" "" "" "" "PENDIENTE"

/-! ### C9 : key-miss updates perform no write -/

/-- C9, confirmed: each update-by-key operation returns without raising
and performs no write-back when the tab has no data rows or no row whose
key column matches the given key (the hypothesis covers both cases, being
vacuous on an empty tab). -/
theorem actualizar_sin_match_no_escribe
    (valsE valsA valsD : SheetValues)
    (cod_evaluacion cod_resolucion fecha_resolucion num_autorizacion
     fecha_autorizacion : String)
    (num_eval certificado_anterior fecha_emitida_cert_anterior
     fecha_caducidad_cert_anterior num_resolucion fecha_resolucion2
     num_certificado fecha_emitida_cert vigencia_autorizacion : String)
    (num_documento_simple nuevo_estado : String)
    (hE : ∀ r ∈ (leer_df valsE COLUMNAS_EVALUACION).rows,
      cellAt COLUMNAS_EVALUACION r "N° DE EVALUACIÓN" ≠ cod_evaluacion)
    (hA : ∀ r ∈ (leer_df valsA COLUMNAS_AUTORIZACION).rows,
      cellAt COLUMNAS_AUTORIZACION r "N° DE EVALUACION" ≠ num_eval)
    (hD : ∀ r ∈ (leer_df valsD COLUMNAS_DOCUMENTOS).rows,
      pyStrip (cellAt COLUMNAS_DOCUMENTOS r "N° DE DOCUMENTO SIMPLE") ≠
        pyStrip num_documento_simple) :
    actualizar_evaluacion_con_resolucion valsE cod_evaluacion cod_resolucion
      fecha_resolucion num_autorizacion fecha_autorizacion = none ∧
    actualizar_autorizacion_resolucion_y_cert valsA num_eval certificado_anterior
      fecha_emitida_cert_anterior fecha_caducidad_cert_anterior num_resolucion
      fecha_resolucion2 num_certificado fecha_emitida_cert
      vigencia_autorizacion = none ∧
    actualizar_estado_documento valsD num_documento_simple nuevo_estado = none := by
  refine ⟨?_, ?_, ?_⟩
  · have hany : (leer_df valsE COLUMNAS_EVALUACION).rows.any
        (fun r => cellAt COLUMNAS_EVALUACION r "N° DE EVALUACIÓN" ==
          cod_evaluacion) = false :=
      List.any_eq_false.mpr (fun r hr => by simpa using hE r hr)
    by_cases he : (leer_df valsE COLUMNAS_EVALUACION).rows.isEmpty
    · simp [actualizar_evaluacion_con_resolucion, he]
    · simp [actualizar_evaluacion_con_resolucion, he, hany]
  · have hany : (leer_df valsA COLUMNAS_AUTORIZACION).rows.any
        (fun r => cellAt COLUMNAS_AUTORIZACION r "N° DE EVALUACION" ==
          num_eval) = false :=
      List.any_eq_false.mpr (fun r hr => by simpa using hA r hr)
    by_cases he : (leer_df valsA COLUMNAS_AUTORIZACION).rows.isEmpty
    · simp [actualizar_autorizacion_resolucion_y_cert, he]
    · simp [actualizar_autorizacion_resolucion_y_cert, he, hany]
  · have hany : (leer_df valsD COLUMNAS_DOCUMENTOS).rows.any
        (fun r => pyStrip (cellAt COLUMNAS_DOCUMENTOS r "N° DE DOCUMENTO SIMPLE") ==
          pyStrip num_documento_simple) = false :=
      List.any_eq_false.mpr (fun r hr => by simpa using hD r hr)
    by_cases he : (leer_df valsD COLUMNAS_DOCUMENTOS).rows.isEmpty
    · simp [actualizar_estado_documento, he]
    · simp [actualizar_estado_documento, he, hany]

/-- Witness for C9: one-row tabs whose keys miss the requested ones. -/
theorem actualizar_sin_match_no_escribe_witness :
    actualizar_evaluacion_con_resolucion
      (COLUMNAS_EVALUACION ::
        [["1", "DS-1", "AAA", "E-1", "01/01/2026", "", "", "", ""]])
      "E-9" "R-1" "02/01/2026" "A-1" "03/01/2026" = none ∧
    actualizar_autorizacion_resolucion_y_cert
      (COLUMNAS_AUTORIZACION ::
        [["03/01/2026", "DS-3", "CCC", "11111111", "F", "dom", "", "", "", "E-3",
          "04/01/2026", "", "", "", "", "vig", "lugar", "", "ref", "giro", "hor",
          "", "", ""]])
      "E-9" "" "" "" "R-2" "05/01/2026" "C-1" "06/01/2026" "vig2" = none ∧
    actualizar_estado_documento
      (COLUMNAS_DOCUMENTOS ::
        [["PENDIENTE", "1", "05/01/2026", "DS-4", "SOLICITUD", "DDD", "22222222",
          "dom2", "giro2", "ubi", "999", "PROCEDENTE", "", "", "", ""]])
      "DS-9" "APROBADO" = none :=
  actualizar_sin_match_no_escribe
    (COLUMNAS_EVALUACION ::
      [["1", "DS-1", "AAA", "E-1", "01/01/2026", "", "", "", ""]])
    (COLUMNAS_AUTORIZACION ::
      [["03/01/2026", "DS-3", "CCC", "11111111", "F", "dom", "", "", "", "E-3",
        "04/01/2026", "", "", "", "", "vig", "lugar", "", "ref", "giro", "hor",
        "", "", ""]])
    (COLUMNAS_DOCUMENTOS ::
      [["PENDIENTE", "1", "05/01/2026", "DS-4", "SOLICITUD", "DDD", "22222222",
        "dom2", "giro2", "ubi", "999", "PROCEDENTE", "", "", "", ""]])
    "E-9" "R-1" "02/01/2026" "A-1" "03/01/2026"
    "E-9" "" "" "" "R-2" "05/01/2026" "C-1" "06/01/2026" "vig2"
    "DS-9" "APROBADO"
    (by decide) (by decide) (by decide)

/-! ### C10 : the estado update touches every matching row, nothing else -/

/-- C10, confirmed: on a well-formed Documentos_CA tab with at least one
matching row, actualizar_estado_documento writes back the header and, for
every row whose document-number cell (column index 3) trimmed equals the
trimmed key, that row with only its ESTADO cell (index 0) replaced by the
upper-cased new state; all other columns of matching rows and all
non-matching rows are unchanged. -/
theorem actualizar_estado_todos (rows : SheetValues) (num estado : String)
    (hr : ∀ r ∈ rows, r.length = COLUMNAS_DOCUMENTOS.length)
    (hm : ∃ r ∈ rows, pyStrip (r.getD 3 "") = pyStrip num) :
    actualizar_estado_documento (COLUMNAS_DOCUMENTOS :: rows) num estado =
      some (COLUMNAS_DOCUMENTOS :: rows.map (fun r =>
        if pyStrip (r.getD 3 "") = pyStrip num then r.set 0 (pyUpper estado)
        else r)) := by
  have hleer := leer_df_wf COLUMNAS_DOCUMENTOS (by decide) rows hr
  have hcell : ∀ r : Row,
      cellAt COLUMNAS_DOCUMENTOS r "N° DE DOCUMENTO SIMPLE" = r.getD 3 "" :=
    fun r => rfl
  have hset : ∀ r : Row,
      setCell COLUMNAS_DOCUMENTOS r "ESTADO" (pyUpper estado) =
        r.set 0 (pyUpper estado) := fun r => rfl
  obtain ⟨r0, hr0, hq⟩ := hm
  have hne : rows ≠ [] := by
    intro e
    subst e
    cases hr0
  have hany : rows.any
      (fun r => pyStrip (cellAt COLUMNAS_DOCUMENTOS r "N° DE DOCUMENTO SIMPLE") ==
        pyStrip num) = true :=
    List.any_eq_true.mpr ⟨r0, hr0, by rw [hcell r0, hq]; exact beq_self_eq_true _⟩
  have hmap : rows.map (fun r =>
      if (pyStrip (cellAt COLUMNAS_DOCUMENTOS r "N° DE DOCUMENTO SIMPLE") ==
          pyStrip num) = true
      then setCell COLUMNAS_DOCUMENTOS r "ESTADO" (pyUpper estado) else r) =
      rows.map (fun r =>
        if pyStrip (r.getD 3 "") = pyStrip num then r.set 0 (pyUpper estado)
        else r) := by
    apply List.map_congr_left
    intro r _
    by_cases h : pyStrip (r.getD 3 "") = pyStrip num
    · have hb : (pyStrip (r.getD 3 "") == pyStrip num) = true := by
        rw [h]
        exact beq_self_eq_true _
      rw [hcell r, hset r, hb, if_pos rfl, if_pos h]
    · have hb : (pyStrip (r.getD 3 "") == pyStrip num) = false :=
        beq_eq_false_iff_ne.mpr h
      rw [hcell r, hb, if_neg (by simp), if_neg h]
  have hlen2 : ∀ r ∈ rows.map (fun r =>
      if pyStrip (r.getD 3 "") = pyStrip num then r.set 0 (pyUpper estado)
      else r), r.length = COLUMNAS_DOCUMENTOS.length := by
    intro r h
    obtain ⟨r1, hr1, rfl⟩ := List.mem_map.mp h
    by_cases h1 : pyStrip (r1.getD 3 "") = pyStrip num
    · rw [if_pos h1, List.length_set]
      exact hr r1 hr1
    · rw [if_neg h1]
      exact hr r1 hr1
  unfold actualizar_estado_documento
  rw [hleer]
  simp only [hany, hmap]
  rw [if_neg (by simp [hne]), if_neg (by simp)]
  rw [escribir_df_wf COLUMNAS_DOCUMENTOS (by decide) _ hlen2]

/-- Witness for C10: two rows matching the key up to surrounding
whitespace are both updated, a third row is untouched. -/
theorem actualizar_estado_todos_witness :
    actualizar_estado_documento
      (COLUMNAS_DOCUMENTOS ::
        [["OLD", "1", "f1", "DS-9 ", "a", "n", "d", "dom", "g", "u", "c", "p",
          "", "", "", ""],
         ["X", "2", "f2", " DS-9", "a", "n", "d", "dom", "g", "u", "c", "p",
          "", "", "", ""],
         ["KEEP", "3", "f3", "DS-7", "a", "n", "d", "dom", "g", "u", "c", "p",
          "", "", "", ""]])
      "DS-9" "aprobado" =
      some (COLUMNAS_DOCUMENTOS ::
        [["APROBADO", "1", "f1", "DS-9 ", "a", "n", "d", "dom", "g", "u", "c", "p",
          "", "", "", ""],
         ["APROBADO", "2", "f2", " DS-9", "a", "n", "d", "dom", "g", "u", "c", "p",
          "", "", "", ""],
         ["KEEP", "3", "f3", "DS-7", "a", "n", "d", "dom", "g", "u", "c", "p",
          "", "", "", ""]]) :=
  actualizar_estado_todos
    [["OLD", "1", "f1", "DS-9 ", "a", "n", "d", "dom", "g", "u", "c", "p",
      "", "", "", ""],
     ["X", "2", "f2", " DS-9", "a", "n", "d", "dom", "g", "u", "c", "p",
      "", "", "", ""],
     ["KEEP", "3", "f3", "DS-7", "a", "n", "d", "dom", "g", "u", "c", "p",
      "", "", "", ""]]
    "DS-9" "aprobado" (by decide) (by decide)

end Glde
